import Mathlib

/-!
Shallow embedding of the provider geocoding cache-and-reconciliation layer
of `src/services/providersService.ts` (classes `GeocodingService` and
`ProvidersService`), together with theorems settling the frozen claims.

Modelling conventions:
* JS timestamps (`Date.now()`, ISO strings parsed back with `new Date(...)`)
  are `Int` milliseconds.
* Latitude/longitude floats are `Rat` (the source only ever copies them).
* The `AsyncStorage` keys used by the service become the fields of
  `StorageState`; each loader in the source collapses an absent, malformed
  or unreadable stored blob to a neutral value (`[]`, `none`), so the state
  fields directly hold the loader's view.
* Network I/O is an oracle in `Env`: `fetch` is the provider-directory GET
  (`none` = network error, non-2xx, malformed JSON or `success:false`), and
  `remote` maps a Nominatim query string to the single best hit
  (`none` = request failure or empty result list; both fall through
  identically in the source).
* Functions additionally return the flags the claims talk about: whether a
  remote geocoding request was issued, and whether the directory fetch was
  attempted.
* The fire-and-forget `cleanExpiredCache()` launched in the background by
  `fetchProvidersFromAPI` only prunes the coordinate cache and is not
  modelled; no claim depends on it.
-/

/-- `geocoding_source` of `ProviderCoordinates` ('api' | 'manual' | 'fallback'). -/
inductive GeocodingSource where
  | api
  | manual
  | fallback
deriving DecidableEq, Repr

/-- `accuracy` of `ProviderCoordinates` ('exact' | 'approximate' | 'city_level'). -/
inductive GeoAccuracy where
  | exact
  | approximate
  | city_level
deriving DecidableEq, Repr

/-- `ProviderCoordinates` from `providersService.ts`. -/
structure ProviderCoordinates where
  latitude : Rat
  longitude : Rat
  geocoded_at : Int
  geocoding_source : GeocodingSource
  accuracy : Option GeoAccuracy
deriving DecidableEq, Repr

/-- A directory entry as delivered by the remote API
(`Omit<Provider, 'coordinates' | 'distance_from_user' | 'last_updated'>`).
Fields never read by the core (`code`, `external_code`, `country`, `county`,
`note`, `emails`, `phones`) are omitted; the source only spreads them
through unchanged. -/
structure ApiProvider where
  id : Nat
  title : String
  provider_type : String
  address : String
  city : String
  sector : String
  agreeged : Bool
deriving DecidableEq, Repr

/-- `Provider` from `providersService.ts` (same field subset as
`ApiProvider`, plus the two fields the service attaches). -/
structure Provider where
  id : Nat
  title : String
  provider_type : String
  address : String
  city : String
  sector : String
  agreeged : Bool
  coordinates : Option ProviderCoordinates
  last_updated : Option Int
deriving DecidableEq, Repr

/-- Attach service-owned fields to an API record (the `{...apiProvider, ...}` spreads). -/
def ApiProvider.toProvider (p : ApiProvider) (co : Option ProviderCoordinates)
    (lu : Option Int) : Provider :=
  { id := p.id, title := p.title, provider_type := p.provider_type,
    address := p.address, city := p.city, sector := p.sector,
    agreeged := p.agreeged, coordinates := co, last_updated := lu }

/-- Strip a `Provider` back to its API-delivered fields. -/
def Provider.core (p : Provider) : ApiProvider :=
  { id := p.id, title := p.title, provider_type := p.provider_type,
    address := p.address, city := p.city, sector := p.sector,
    agreeged := p.agreeged }

/-- `GeocodingMetadata` from `providersService.ts`. -/
structure GeocodingMetadata where
  total_providers : Nat
  geocoded_providers : Nat
  last_full_geocoding : Int
  version : String
deriving DecidableEq, Repr

/-- The success/data envelope (`ApiResponse<Provider[]>`); the human-readable
`message`/`error` strings are not modelled. -/
structure ApiResult where
  success : Bool
  data : List Provider
deriving DecidableEq, Repr

/-! ### Association-list maps

The persisted geocoding cache is a JS `Map<string, ProviderCoordinates>`
(serialized as an object, hence unique keys); modelled as an association
list with unique-key insertion. -/

/-- First-match lookup (JS `Map.get`; keys are unique under `aset`). -/
def alookup {κ α : Type} [DecidableEq κ] : List (κ × α) → κ → Option α
  | [], _ => none
  | (k, v) :: rest, k' => if k = k' then some v else alookup rest k'

/-- JS `Map.set`: replace the existing binding or append a new one. -/
def aset {κ α : Type} [DecidableEq κ] : List (κ × α) → κ → α → List (κ × α)
  | [], k, v => [(k, v)]
  | (k', v') :: rest, k, v =>
    if k' = k then (k, v) :: rest else (k', v') :: aset rest k v

/-- JS `Map.delete`. -/
def aerase {κ α : Type} [DecidableEq κ] : List (κ × α) → κ → List (κ × α)
  | [], _ => []
  | (k', v') :: rest, k => if k' = k then rest else (k', v') :: aerase rest k

/-! ### String normalization (`createCacheKey`)

JS string primitives are embedded as structural functions over the
character list (Lean core's `String.trim`/`String.toLower` are
byte-position based and not kernel-reducible). -/

/-- JS `.toLowerCase()`. -/
def jsToLower (s : String) : String := String.mk (s.data.map Char.toLower)

/-- JS `.trim()`: drop leading and trailing whitespace. -/
def jsTrim (s : String) : String :=
  String.mk (((s.data.dropWhile Char.isWhitespace).reverse.dropWhile
    Char.isWhitespace).reverse)

/-- Replace every maximal run of whitespace by a single space
(JS `.replace(/\s+/g, ' ')`). -/
def collapseChars : List Char → List Char
  | [] => []
  | [c] => if c.isWhitespace then [' '] else [c]
  | c :: d :: rest =>
    if c.isWhitespace then
      if d.isWhitespace then collapseChars (d :: rest)
      else ' ' :: collapseChars (d :: rest)
    else c :: collapseChars (d :: rest)

/-- Whitespace collapsing on strings. -/
def collapseWS (s : String) : String := String.mk (collapseChars s.data)

/-- `address.toLowerCase().trim().replace(/\s+/g, ' ')` from `createCacheKey`. -/
def cleanAddress (a : String) : String := collapseWS (jsTrim (jsToLower a))

/-- `city.toLowerCase().trim()` from `createCacheKey` (note: no whitespace
collapsing on the city in the source). -/
def cleanCity (c : String) : String := jsTrim (jsToLower c)

/-- `GeocodingService.createCacheKey`. -/
def createCacheKey (address city : String) : String :=
  cleanAddress address ++ "_" ++ cleanCity city

/-- Modelled from the spec: the normalization the spec's "Cache key"
paragraph describes — trimmed, case-folded, whitespace-collapsed — applied
to a single component. Used only to compare the spec's claim with the
source's `createCacheKey`. -/
def specNormalize (s : String) : String := collapseWS (jsTrim (jsToLower s))

/-! ### GeocodingService -/

/-- `GEOCODING_CONFIG.coordinatesCacheTimeout`: 90 days in ms. -/
def coordinatesCacheTimeout : Int := 90 * 24 * 60 * 60 * 1000

/-- `GEOCODING_CONFIG.dataCacheTimeout` expressed as the hour count used by
`isCacheExpired`'s default argument. -/
def dataCacheTimeoutHours : Int := 24

/-- The in-memory/persisted coordinate cache (`GeocodingService.cache`). -/
def GeoCache : Type := List (String × ProviderCoordinates)

instance : DecidableEq GeoCache := by
  unfold GeoCache
  infer_instance

/-- The environment a sync runs against: the clock and the two network
oracles. -/
structure Env where
  now : Int
  fetch : Option (List ApiProvider)
  remote : String → Option (Rat × Rat)

/-- `GeocodingService.isCacheValid`. -/
def isCacheValid (now : Int) (co : ProviderCoordinates) : Bool :=
  now - co.geocoded_at < coordinatesCacheTimeout

/-- The Nominatim free-text query built in `geocodeAddress`
(country is always the default `'Bénin'` in the core's callers). -/
def buildQuery (address city : String) : String :=
  if jsTrim address = "" then city ++ ", Bénin"
  else address ++ ", " ++ city ++ ", Bénin"

/-- The static known-city fallback table (`cityCoordinates` in
`getFallbackCoordinates`), keyed by lowercased city name. -/
def cityCoordinates : List (String × (Rat × Rat)) :=
  [("cotonou", (6.3654, 2.4183)),
   ("porto-novo", (6.4969, 2.6283)),
   ("parakou", (9.3372, 2.6303)),
   ("djougou", (9.7086, 1.6706)),
   ("bohicon", (7.1781, 2.0672)),
   ("kandi", (11.1342, 2.9387)),
   ("ouidah", (6.3617, 2.0852)),
   ("abomey", (7.1826, 1.9912)),
   ("abomey-calavi", (6.4421, 2.3569)),
   ("lokossa", (6.6389, 1.7167)),
   ("natitingou", (10.3167, 1.3833)),
   ("savalou", (7.9286, 1.9753)),
   ("pobè", (6.9833, 2.6667)),
   ("tchaourou", (8.8833, 2.6))]

/-- `GeocodingService.getFallbackCoordinates`: static-table lookup; a hit is
cached under `createCacheKey('', city)`. Returns the result and the updated
cache. -/
def getFallbackCoordinates (now : Int) (city : String) (cache : GeoCache) :
    Option ProviderCoordinates × GeoCache :=
  match alookup cityCoordinates (jsTrim (jsToLower city)) with
  | some ll =>
    let co : ProviderCoordinates :=
      { latitude := ll.1, longitude := ll.2, geocoded_at := now,
        geocoding_source := .fallback, accuracy := some .city_level }
    (some co, aset cache (createCacheKey "" city) co)
  | none => (none, cache)

/-- The cache-miss path of `geocodeAddress`: one remote lookup, then the
static table. The `Bool` records that a remote request was issued. -/
def resolveFresh (env : Env) (cache : GeoCache) (address city : String) :
    Option ProviderCoordinates × GeoCache × Bool :=
  match env.remote (buildQuery address city) with
  | some ll =>
    let co : ProviderCoordinates :=
      { latitude := ll.1, longitude := ll.2, geocoded_at := env.now,
        geocoding_source := .api,
        accuracy := some (if jsTrim address = "" then .city_level else .approximate) }
    (some co, aset cache (createCacheKey address city) co, true)
  | none =>
    let r := getFallbackCoordinates env.now city cache
    (r.1, r.2, true)

/-- `GeocodingService.geocodeAddress`: cache first (expired entries are
deleted and treated as absent), then `resolveFresh`. Returns the result,
the updated cache, and whether a remote request was issued. -/
def geocodeAddress (env : Env) (cache : GeoCache) (address city : String) :
    Option ProviderCoordinates × GeoCache × Bool :=
  let key := createCacheKey address city
  match alookup cache key with
  | some co =>
    if isCacheValid env.now co then (some co, cache, false)
    else resolveFresh env (aerase cache key) address city
  | none => resolveFresh env cache address city

/-! ### ProvidersService -/

/-- The persisted state: one field per `AsyncStorage` key the service uses.
Loaders in the source collapse an absent or malformed blob to `[]`/`none`,
so each field holds the loader's view directly. -/
structure StorageState where
  providers : List Provider
  providers_with_coordinates : List Provider
  geocoding_metadata : Option GeocodingMetadata
  last_sync : Option Int
  geocoding_cache : GeoCache
deriving DecidableEq

/-- `ProvidersService.loadProvidersWithCoordinates` (absent/invalid cache
already collapsed to `[]` in the state). -/
def loadProvidersWithCoordinates (st : StorageState) : List Provider :=
  st.providers_with_coordinates

/-- `ProvidersService.saveProvidersWithCoordinates`: rewrite the snapshot
and the reconciliation metadata. -/
def saveProvidersWithCoordinates (st : StorageState) (ps : List Provider)
    (now : Int) : StorageState :=
  { st with
    providers_with_coordinates := ps,
    geocoding_metadata := some
      { total_providers := ps.length,
        geocoded_providers := (ps.filter (fun p => p.coordinates.isSome)).length,
        last_full_geocoding := now,
        version := "2.0" } }

/-- `ProvidersService.needsGeocodingUpdate`. -/
def needsGeocodingUpdate (st : StorageState) (apiProviders : List ApiProvider) : Bool :=
  let cachedProviders := loadProvidersWithCoordinates st
  if cachedProviders.length = 0 then true
  else
    match st.geocoding_metadata with
    | none => true
    | some metaParsed =>
      if metaParsed.total_providers ≠ apiProviders.length then true
      else
        let cachedIds := cachedProviders.map (fun p => p.id)
        let newProviders := apiProviders.filter (fun p => !(cachedIds.contains p.id))
        if newProviders.length > 0 then true
        else
          let addressChanges := apiProviders.any (fun apiProvider =>
            match cachedProviders.find? (fun c => c.id == apiProvider.id) with
            | some cached =>
              cached.address != apiProvider.address || cached.city != apiProvider.city
            | none => false)
          if addressChanges then true else false

/-- The coordinate map built inside `mergeWithCachedCoordinates`:
`new Map(cached.map(p => [p.id, p.coordinates]).filter(([_, c]) => c))`.
A JS `Map` built from an entry list keeps the last occurrence of each key,
hence the lookup on the reversed entry list. -/
def cachedCoordsGet (cachedProviders : List Provider) (id : Nat) :
    Option ProviderCoordinates :=
  ((cachedProviders.filterMap
      (fun p => p.coordinates.map (fun co => (p.id, co)))).reverse.find?
    (fun e => e.1 == id)).map (fun e => e.2)

/-- `ProvidersService.mergeWithCachedCoordinates`. -/
def mergeWithCachedCoordinates (cachedProviders : List Provider)
    (apiProviders : List ApiProvider) (now : Int) : List Provider :=
  apiProviders.map (fun p =>
    p.toProvider (cachedCoordsGet cachedProviders p.id) (some now))

/-- The sequential geocoding loop inside `geocodeProviders`, threading the
coordinate cache and counting issued remote requests. `geocodeAddress`
never throws in the model (the source's per-provider `try/catch` only
guards runtime faults), so only the `try` path is modelled. -/
def geocodeLoop (env : Env) : GeoCache → List Provider →
    List Provider × GeoCache × Nat
  | cache, [] => ([], cache, 0)
  | cache, p :: rest =>
    let city := if p.city = "" then "COTONOU" else p.city
    let r := geocodeAddress env cache p.address city
    let gp : Provider := { p with coordinates := r.1, last_updated := some env.now }
    let rec' := geocodeLoop env r.2.1 rest
    (gp :: rec'.1, rec'.2.1, (if r.2.2 then 1 else 0) + rec'.2.2)

/-- `ProvidersService.geocodeProviders`: keep already-geocoded records as
they are, geocode the rest in sequence, already-geocoded first. -/
def geocodeProviders (env : Env) (cache : GeoCache) (providers : List Provider) :
    List Provider × GeoCache × Nat :=
  let needsGeocodingProviders := providers.filter (fun p => p.coordinates.isNone)
  let alreadyGeocodedProviders := providers.filter (fun p => p.coordinates.isSome)
  if needsGeocodingProviders.isEmpty then (providers, cache, 0)
  else
    let r := geocodeLoop env cache needsGeocodingProviders
    (alreadyGeocodedProviders ++ r.1, r.2.1, r.2.2)

/-- `ProvidersService.fetchProvidersFromAPI`: fetch, reconcile, geocode the
deltas, persist; on fetch failure fall back to the persisted snapshot.
Returns the API result, the updated state, and the number of remote
geocoding requests issued. -/
def fetchProvidersFromAPI (env : Env) (st : StorageState) :
    ApiResult × StorageState × Nat :=
  match env.fetch with
  | some apiData =>
    if needsGeocodingUpdate st apiData then
      let mergedProviders :=
        mergeWithCachedCoordinates (loadProvidersWithCoordinates st) apiData env.now
      let g := geocodeProviders env st.geocoding_cache mergedProviders
      let st' := saveProvidersWithCoordinates
        { st with geocoding_cache := g.2.1 } g.1 env.now
      ({ success := true, data := g.1 }, st', g.2.2)
    else
      let merged :=
        mergeWithCachedCoordinates (loadProvidersWithCoordinates st) apiData env.now
      ({ success := true, data := merged }, st, 0)
  | none =>
    let cachedProvidersWithCoords := loadProvidersWithCoordinates st
    if cachedProvidersWithCoords.length > 0 then
      ({ success := true, data := cachedProvidersWithCoords }, st, 0)
    else
      ({ success := false, data := [] }, st, 0)

/-- `ProvidersService.saveToCache`: old-format key, `last_sync`, then the
new format (snapshot + metadata). -/
def saveToCache (st : StorageState) (ps : List Provider) (now : Int) : StorageState :=
  saveProvidersWithCoordinates
    { st with providers := ps, last_sync := some now } ps now

/-- `ProvidersService.loadFromCache`: new format first, old format as
fallback. -/
def loadFromCache (st : StorageState) : List Provider :=
  if (loadProvidersWithCoordinates st).length > 0 then
    loadProvidersWithCoordinates st
  else st.providers

/-- `ProvidersService.isCacheExpired`: the source compares fractional hours
(`diffHours > maxAgeHours`); over exact arithmetic that is
`now - last > maxAgeHours * 3600000` ms. Absent `last_sync` counts as
expired. -/
def isCacheExpired (now : Int) (lastSync : Option Int)
    (maxAgeHours : Int := dataCacheTimeoutHours) : Bool :=
  match lastSync with
  | none => true
  | some t => now - t > maxAgeHours * (1000 * 60 * 60)

/-- Result of one `syncProviders` run: the returned envelope, the final
state, whether the directory fetch was attempted, and how many remote
geocoding requests were issued. -/
structure SyncOut where
  res : ApiResult
  state : StorageState
  fetchAttempted : Bool
  remoteCalls : Nat
deriving DecidableEq

/-- `ProvidersService.syncProviders`. -/
def syncProviders (env : Env) (st : StorageState) (forceRefresh : Bool) : SyncOut :=
  let cacheExpired := isCacheExpired env.now st.last_sync
  if !forceRefresh && !cacheExpired
      && (loadProvidersWithCoordinates st).length > 0 then
    { res := { success := true, data := loadProvidersWithCoordinates st },
      state := st, fetchAttempted := false, remoteCalls := 0 }
  else
    let f := fetchProvidersFromAPI env st
    let apiResponse := f.1
    if apiResponse.success && apiResponse.data.length > 0 then
      { res := apiResponse, state := saveToCache f.2.1 apiResponse.data env.now,
        fetchAttempted := true, remoteCalls := f.2.2 }
    else
      let cachedProviders := loadFromCache f.2.1
      if cachedProviders.length > 0 then
        { res := { success := true, data := cachedProviders }, state := f.2.1,
          fetchAttempted := true, remoteCalls := f.2.2 }
      else
        { res := apiResponse, state := f.2.1,
          fetchAttempted := true, remoteCalls := f.2.2 }

/-! ### Concrete fixtures for witnesses and counterexamples -/

/-- An environment where every network request fails. -/
def envNone : Env := { now := 0, fetch := none, remote := fun _ => none }

/-- A fresh, exact coordinate pinned at time 0. -/
def co4 : ProviderCoordinates :=
  { latitude := 0, longitude := 0, geocoded_at := 0,
    geocoding_source := .api, accuracy := some .exact }

/-- A coordinate cache holding `co4` for the key of `("", "Cotonou")`. -/
def cache4 : GeoCache := [(createCacheKey "" "Cotonou", co4)]

/-- Clock 1 ms after `co4` was geocoded: well inside the 90-day window. -/
def env4fresh : Env := { now := 1, fetch := none, remote := fun _ => none }

/-- Clock exactly 90 days after `co4` was geocoded: exactly at the window. -/
def env4old : Env :=
  { now := coordinatesCacheTimeout, fetch := none, remote := fun _ => none }

/-- The fallback-table coordinate for Cotonou produced at time 0. -/
def coCotonouFallback : ProviderCoordinates :=
  { latitude := 6.3654, longitude := 2.4183, geocoded_at := 0,
    geocoding_source := .fallback, accuracy := some .city_level }

/-- The cache state after a fallback answer for `("", "Cotonou")`. -/
def cacheCotonou : GeoCache := [(createCacheKey "" "Cotonou", coCotonouFallback)]

/-- A geocoded provider record with no coordinate. -/
def provA : Provider :=
  { id := 1, title := "P", provider_type := "t", address := "A",
    city := "Cotonou", sector := "privé", agreeged := true,
    coordinates := none, last_updated := none }

/-- A state holding `provA` as the persisted snapshot, synced at time 0. -/
def stA : StorageState :=
  { providers := [], providers_with_coordinates := [provA],
    geocoding_metadata := none, last_sync := some 0, geocoding_cache := [] }

/-- A completely empty storage state. -/
def stEmpty : StorageState :=
  { providers := [], providers_with_coordinates := [],
    geocoding_metadata := none, last_sync := none, geocoding_cache := [] }

/-- Directory entries for the partial-failure scenario. -/
def pA1 : ApiProvider := ⟨1, "P1", "t", "A1", "Cotonou", "privé", true⟩

/-- Second directory entry; its city is in no table and its query fails. -/
def pA2 : ApiProvider := ⟨2, "P2", "t", "A2", "Xlandia", "privé", false⟩

/-- Third directory entry. -/
def pA3 : ApiProvider := ⟨3, "P3", "t", "A3", "Parakou", "public", true⟩

/-- A second directory entry sharing `pA1`'s identifier but with another
address (a duplicate-identifier fresh list). -/
def pA1b : ApiProvider := ⟨1, "P1", "t", "B1", "Cotonou", "privé", true⟩

/-- Environment for the partial-failure scenario: the fetch returns three
providers and remote geocoding succeeds for the first and third query but
fails for the second (whose city is also absent from the static table). -/
def envP5 : Env :=
  { now := 0, fetch := some [pA1, pA2, pA3],
    remote := fun q =>
      if q = buildQuery "A1" "Cotonou" then some (1, 2)
      else if q = buildQuery "A3" "Parakou" then some (3, 4)
      else none }

/-! ### Helper lemmas -/

theorem alookup_aset_self {κ α : Type} [DecidableEq κ] (m : List (κ × α)) (k : κ) (v : α) :
    alookup (aset m k v) k = some v := by
  induction m with
  | nil => simp [aset, alookup]
  | cons e rest ih =>
    by_cases h : e.1 = k
    · simp [aset, h, alookup]
    · simp [aset, h, alookup, ih]

theorem length_filter_add_length_filter_not {α : Type} (l : List α) (p : α → Bool) :
    (l.filter p).length + (l.filter (fun a => !p a)).length = l.length := by
  induction l with
  | nil => simp
  | cons a l ih =>
    by_cases h : p a <;> simp [List.filter_cons, h, ← ih] <;> omega

theorem filter_isNone_eq_filter_not_isSome (ps : List Provider) :
    ps.filter (fun p => p.coordinates.isNone) =
      ps.filter (fun p => !p.coordinates.isSome) := by
  apply List.filter_congr
  intro a _
  cases a.coordinates <;> rfl

theorem geocodeLoop_map_core (env : Env) (cache : GeoCache) (l : List Provider) :
    ((geocodeLoop env cache l).1).map Provider.core = l.map Provider.core := by
  induction l generalizing cache with
  | nil => rfl
  | cons p rest ih => simp [geocodeLoop, Provider.core, ih]

theorem geocodeProviders_map_core (env : Env) (cache : GeoCache) (ps : List Provider) :
    ((geocodeProviders env cache ps).1).map Provider.core =
      (ps.filter (fun p => p.coordinates.isSome)).map Provider.core ++
      (ps.filter (fun p => p.coordinates.isNone)).map Provider.core := by
  unfold geocodeProviders
  by_cases h : (ps.filter (fun p => p.coordinates.isNone)).isEmpty
  · have h1 : ps.filter (fun p => p.coordinates.isNone) = [] := by
      simpa [List.isEmpty_iff] using h
    have h2 : ps.filter (fun p => p.coordinates.isSome) = ps := by
      rw [List.filter_eq_self]
      intro a ha
      have hne := List.filter_eq_nil_iff.mp h1 a ha
      cases hco : a.coordinates with
      | none => exact absurd (by simp [hco]) hne
      | some c => simp [hco]
    simp [h, h1, h2]
  · simp [h, geocodeLoop_map_core]

theorem geocodeProviders_length (env : Env) (cache : GeoCache) (ps : List Provider) :
    ((geocodeProviders env cache ps).1).length = ps.length := by
  have h := congrArg List.length (geocodeProviders_map_core env cache ps)
  rw [List.length_map, List.length_append, List.length_map, List.length_map,
    filter_isNone_eq_filter_not_isSome] at h
  rw [h, length_filter_add_length_filter_not]

/-! ### Claim C10 -/

/-- C10: `geocodeProviders` returns exactly one output record per input
record — no provider is dropped or duplicated, whether or not its geocoding
succeeded — and the output lists the providers that already carried a
coordinate first (in their original relative order) followed by the
providers that needed geocoding (in their original relative order). -/
theorem C10_geocodeProviders_partition (env : Env) (cache : GeoCache)
    (providers : List Provider) :
    ((geocodeProviders env cache providers).1).map Provider.core =
      (providers.filter (fun p => p.coordinates.isSome)).map Provider.core ++
      (providers.filter (fun p => p.coordinates.isNone)).map Provider.core
    ∧ ((geocodeProviders env cache providers).1).length = providers.length :=
  ⟨geocodeProviders_map_core env cache providers,
   geocodeProviders_length env cache providers⟩

/-! ### Claim C9 -/

/-- C9 counterexample: the pairs `("x", "a  b")` and `("x", "a b")` are
equal after the claimed normalization of both components (trim, case-fold,
whitespace-collapse), yet `createCacheKey` gives them different keys,
because the source never whitespace-collapses the city component. -/
theorem C9_counterexample :
    specNormalize "x" = specNormalize "x" ∧
    specNormalize "a  b" = specNormalize "a b" ∧
    createCacheKey "x" "a  b" ≠ createCacheKey "x" "a b" :=
  ⟨rfl, by decide, by decide⟩

/-- C9 (amended): the cache key is derived deterministically from the
trimmed, case-folded, whitespace-collapsed address and the trimmed,
case-folded (but not whitespace-collapsed) city; any two (address, city)
pairs equal after this normalization produce the same key and therefore
share one coordinate entry. -/
theorem C9_cache_key_determined_by_normalization (a1 c1 a2 c2 : String)
    (ha : cleanAddress a1 = cleanAddress a2) (hc : cleanCity c1 = cleanCity c2) :
    createCacheKey a1 c1 = createCacheKey a2 c2 := by
  simp only [createCacheKey, ha, hc]

/-- Witness for C9: two concretely different spellings of the same
normalized (address, city) pair share a cache key. -/
theorem C9_witness :
    cleanAddress "12  RUE a" = cleanAddress "12 rue A" ∧
    cleanCity " COTONOU" = cleanCity "cotonou" ∧
    createCacheKey "12  RUE a" " COTONOU" = createCacheKey "12 rue A" "cotonou" :=
  ⟨by decide, by decide,
   C9_cache_key_determined_by_normalization "12  RUE a" " COTONOU" "12 rue A" "cotonou"
     (by decide) (by decide)⟩

/-! ### Claims C4, C5, C8 (Geocoding Resolver) -/

theorem resolveFresh_remoteCalled (env : Env) (cache : GeoCache) (address city : String) :
    (resolveFresh env cache address city).2.2 = true := by
  unfold resolveFresh
  cases env.remote (buildQuery address city) <;> simp

/-- C4: for a key with an entry in the Coordinate Store, an entry strictly
younger than the 90-day window is returned as-is with no remote call and an
unchanged cache, while an entry at least that old is treated as absent: it
is deleted and re-resolution (remote lookup, then fallback) runs. -/
theorem C4_cache_hit_and_expiry (env : Env) (cache : GeoCache)
    (address city : String) (co : ProviderCoordinates)
    (h : alookup cache (createCacheKey address city) = some co) :
    (env.now - co.geocoded_at < coordinatesCacheTimeout →
      geocodeAddress env cache address city = (some co, cache, false))
    ∧ (coordinatesCacheTimeout ≤ env.now - co.geocoded_at →
      geocodeAddress env cache address city =
        resolveFresh env (aerase cache (createCacheKey address city)) address city
      ∧ (geocodeAddress env cache address city).2.2 = true) := by
  constructor
  · intro hlt
    have hval : isCacheValid env.now co = true := by
      simp [isCacheValid]
      exact hlt
    simp [geocodeAddress, h, hval]
  · intro hge
    have hval : isCacheValid env.now co = false := by
      simp [isCacheValid]
      omega
    constructor
    · simp [geocodeAddress, h, hval]
    · simp [geocodeAddress, h, hval, resolveFresh_remoteCalled]

/-- Witness for C4: both branches at concrete inputs — a 1 ms old entry is
served from the cache, a 90-day-old entry triggers re-resolution. -/
theorem C4_witness :
    (geocodeAddress env4fresh cache4 "" "Cotonou" = (some co4, cache4, false))
    ∧ (geocodeAddress env4old cache4 "" "Cotonou" =
        resolveFresh env4old (aerase cache4 (createCacheKey "" "Cotonou")) "" "Cotonou"
      ∧ (geocodeAddress env4old cache4 "" "Cotonou").2.2 = true) :=
  ⟨(C4_cache_hit_and_expiry env4fresh cache4 "" "Cotonou" co4 rfl).1 (by decide),
   (C4_cache_hit_and_expiry env4old cache4 "" "Cotonou" co4 rfl).2 (by decide)⟩

/-- C5: when no valid cache entry short-circuits and the remote lookup
fails or is empty (`remote` returns `none`), `geocodeAddress` falls through
to the static city table: a known (case-folded) city yields a coordinate
tagged source=fallback, accuracy=city_level; an unknown city yields `none`.
The model is a total function, so no exception can escape in either case. -/
theorem C5_fallback_on_remote_failure (env : Env) (cache : GeoCache)
    (address city : String)
    (hmiss : ∀ co, alookup cache (createCacheKey address city) = some co →
      isCacheValid env.now co = false)
    (hfail : env.remote (buildQuery address city) = none) :
    (geocodeAddress env cache address city).1 =
      (alookup cityCoordinates (jsTrim (jsToLower city))).map
        (fun ll => { latitude := ll.1, longitude := ll.2, geocoded_at := env.now,
                     geocoding_source := .fallback,
                     accuracy := some .city_level : ProviderCoordinates }) := by
  cases hl : alookup cache (createCacheKey address city) with
  | none =>
    simp only [geocodeAddress, hl, resolveFresh, hfail, getFallbackCoordinates]
    cases alookup cityCoordinates (jsTrim (jsToLower city)) <;> simp
  | some co =>
    simp only [geocodeAddress, hl, hmiss co hl, Bool.false_eq_true, if_false,
      resolveFresh, hfail, getFallbackCoordinates]
    cases alookup cityCoordinates (jsTrim (jsToLower city)) <;> simp

/-- Witness for C5: empty cache, failing remote, known city: the result is
the Cotonou fallback entry. -/
theorem C5_witness :
    (geocodeAddress envNone [] "addr" "Cotonou").1 =
      (alookup cityCoordinates (jsTrim (jsToLower "Cotonou"))).map
        (fun ll => { latitude := ll.1, longitude := ll.2, geocoded_at := envNone.now,
                     geocoding_source := .fallback,
                     accuracy := some .city_level : ProviderCoordinates }) :=
  C5_fallback_on_remote_failure envNone [] "addr" "Cotonou"
    (fun co h => by simp [alookup] at h) rfl

/-- C8 counterexample: with a failing remote, `geocodeAddress` for the pair
`("12 Rue A", "Cotonou")` produces a fallback-table answer, yet the
immediately repeated call for the same pair issues a remote request again —
the fallback answer was cached under the empty-address key, not under the
key this pair consults. -/
theorem C8_counterexample :
    ((geocodeAddress envNone [] "12 Rue A" "Cotonou").1.map
        (fun co => co.geocoding_source) = some GeocodingSource.fallback)
    ∧ ((geocodeAddress envNone
        ((geocodeAddress envNone [] "12 Rue A" "Cotonou").2.1)
        "12 Rue A" "Cotonou").2.2 = true) :=
  ⟨by decide, by decide⟩

theorem resolveFresh_empty_address_caches (env : Env) (cache : GeoCache)
    (city : String) (co : ProviderCoordinates) (cache2 : GeoCache) (b : Bool)
    (h : resolveFresh env cache "" city = (some co, cache2, b)) :
    alookup cache2 (createCacheKey "" city) = some co ∧ co.geocoded_at = env.now := by
  unfold resolveFresh at h
  cases hr : env.remote (buildQuery "" city) with
  | some ll =>
    rw [hr] at h
    simp only [Prod.mk.injEq, Option.some.injEq] at h
    obtain ⟨h1, h2, h3⟩ := h
    subst h1 h2
    exact ⟨alookup_aset_self cache _ _, rfl⟩
  | none =>
    rw [hr] at h
    simp only [getFallbackCoordinates] at h
    cases ht : alookup cityCoordinates (jsTrim (jsToLower city)) with
    | some ll =>
      rw [ht] at h
      simp only [Prod.mk.injEq, Option.some.injEq] at h
      obtain ⟨h1, h2, h3⟩ := h
      subst h1 h2
      exact ⟨alookup_aset_self cache _ _, rfl⟩
    | none =>
      rw [ht] at h
      simp at h

/-- C8 (amended): every answer `geocodeAddress` produces for an
**empty-address** pair — including a fallback-table answer — is cached
under the key the next lookup for that pair consults: an immediately
repeated call returns the same coordinate from the cache with no remote
request. (For a non-empty address the fallback answer is cached under the
empty-address key instead, and the repeated call hits the network again —
see the counterexample.) -/
theorem C8_empty_address_repeat_hits_cache (env : Env) (cache : GeoCache)
    (city : String) (co : ProviderCoordinates) (cache2 : GeoCache) (b : Bool)
    (h : geocodeAddress env cache "" city = (some co, cache2, b)) :
    geocodeAddress env cache2 "" city = (some co, cache2, false) := by
  cases hl : alookup cache (createCacheKey "" city) with
  | some c0 =>
    simp only [geocodeAddress, hl] at h
    by_cases hv : isCacheValid env.now c0 = true
    · rw [if_pos hv] at h
      simp only [Prod.mk.injEq, Option.some.injEq] at h
      obtain ⟨h1, h2, h3⟩ := h
      subst h1 h2
      simp [geocodeAddress, hl, hv]
    · rw [if_neg hv] at h
      obtain ⟨hc, hts⟩ := resolveFresh_empty_address_caches env _ city co cache2 b h
      have hvco : isCacheValid env.now co = true := by
        simp [isCacheValid, hts, coordinatesCacheTimeout]
      simp [geocodeAddress, hc, hvco]
  | none =>
    simp only [geocodeAddress, hl] at h
    obtain ⟨hc, hts⟩ := resolveFresh_empty_address_caches env _ city co cache2 b h
    have hvco : isCacheValid env.now co = true := by
      simp [isCacheValid, hts, coordinatesCacheTimeout]
    simp [geocodeAddress, hc, hvco]

/-- Witness for C8 (amended): after the fallback answer for
`("", "Cotonou")`, the repeated call is served from the cache. -/
theorem C8_witness :
    geocodeAddress envNone cacheCotonou "" "Cotonou" =
      (some coCotonouFallback, cacheCotonou, false) :=
  C8_empty_address_repeat_hits_cache envNone [] "Cotonou" coCotonouFallback
    cacheCotonou true rfl

/-! ### Claim C6 (merge) -/

theorem find_key_none {κ α : Type} [DecidableEq κ] {es : List (κ × α)} {i : κ}
    (h : i ∉ es.map Prod.fst) : es.find? (fun e => e.1 == i) = none := by
  rw [List.find?_eq_none]
  intro e he
  simp only [beq_iff_eq]
  intro heq
  exact h (List.mem_map.mpr ⟨e, he, heq⟩)

theorem reverse_find_key_of_nodup {κ α : Type} [DecidableEq κ]
    (es : List (κ × α)) (hnd : (es.map Prod.fst).Nodup) (i : κ) :
    es.reverse.find? (fun e => e.1 == i) = es.find? (fun e => e.1 == i) := by
  induction es with
  | nil => rfl
  | cons e rest ih =>
    simp only [List.map_cons, List.nodup_cons] at hnd
    obtain ⟨he1, hndr⟩ := hnd
    rw [List.reverse_cons, List.find?_append, ih hndr, List.find?_cons]
    by_cases hi : e.1 = i
    · subst hi
      rw [find_key_none he1]
      simp
    · have hfalse : (e.1 == i) = false := by simp [hi]
      simp [List.find?_cons, hfalse]

theorem coordEntries_keys_sublist (cached : List Provider) :
    List.Sublist
      ((cached.filterMap
        (fun p => p.coordinates.map (fun co => (p.id, co)))).map Prod.fst)
      (cached.map (fun p => p.id)) := by
  induction cached with
  | nil => simp
  | cons p rest ih =>
    cases hco : p.coordinates with
    | none =>
      rw [List.filterMap_cons, hco]
      exact ih.cons p.id
    | some co =>
      rw [List.filterMap_cons, hco]
      exact ih.cons₂ p.id

theorem find_provider_none {cached : List Provider} {i : Nat}
    (h : i ∉ cached.map (fun p => p.id)) :
    cached.find? (fun c => c.id == i) = none := by
  rw [List.find?_eq_none]
  intro c hc
  simp only [beq_iff_eq]
  intro heq
  exact h (List.mem_map.mpr ⟨c, hc, heq⟩)

theorem cachedCoordsGet_eq_find (cached : List Provider)
    (hnd : (cached.map (fun p => p.id)).Nodup) (i : Nat) :
    cachedCoordsGet cached i =
      (cached.find? (fun c => c.id == i)).bind (fun c => c.coordinates) := by
  unfold cachedCoordsGet
  rw [reverse_find_key_of_nodup _ ((coordEntries_keys_sublist cached).nodup hnd)]
  induction cached with
  | nil => rfl
  | cons p rest ih =>
    simp only [List.map_cons, List.nodup_cons] at hnd
    obtain ⟨hpid, hndr⟩ := hnd
    rw [List.filterMap_cons, List.find?_cons]
    by_cases hid : p.id = i
    · subst hid
      cases hco : p.coordinates with
      | none =>
        have hkeys : p.id ∉ (rest.filterMap
            (fun p => p.coordinates.map (fun co => (p.id, co)))).map Prod.fst :=
          fun hm => hpid ((coordEntries_keys_sublist rest).subset hm)
        simp [Option.map_none', beq_self_eq_true, find_key_none hkeys, hco]
      | some co =>
        simp [hco, List.find?_cons]
    · have hfalse : (p.id == i) = false := by simp [hid]
      cases hco : p.coordinates with
      | none =>
        simp only [Option.map_none', hfalse]
        exact ih hndr
      | some co =>
        simp only [Option.map_some', hfalse, List.find?_cons]
        exact ih hndr

/-- C6: `mergeWithCachedCoordinates` returns exactly one output record per
fresh record, in input order; each output record carries the cached
snapshot's coordinate for its identifier whenever that cached entry has one
(no re-validation of the coordinate's own expiry) and no coordinate
otherwise, and every output record's `last_updated` is the current time.
Stated for a snapshot with distinct identifiers (the data model's
invariant: the identifier is the join key). -/
theorem C6_merge_characterization (cached : List Provider)
    (api : List ApiProvider) (now : Int)
    (hnd : (cached.map (fun p => p.id)).Nodup) :
    mergeWithCachedCoordinates cached api now =
      api.map (fun p => p.toProvider
        ((cached.find? (fun c => c.id == p.id)).bind (fun c => c.coordinates))
        (some now))
    ∧ (mergeWithCachedCoordinates cached api now).length = api.length := by
  constructor
  · unfold mergeWithCachedCoordinates
    exact List.map_congr_left (fun p _ => by rw [cachedCoordsGet_eq_find cached hnd])
  · simp [mergeWithCachedCoordinates]

/-- Witness for C6 at a concrete snapshot and fresh list. -/
theorem C6_witness :
    ((stA.providers_with_coordinates.map (fun p => p.id)).Nodup)
    ∧ (mergeWithCachedCoordinates stA.providers_with_coordinates [pA1, pA2] 5 =
        [pA1, pA2].map (fun p => p.toProvider
          ((stA.providers_with_coordinates.find? (fun c => c.id == p.id)).bind
            (fun c => c.coordinates)) (some 5))
      ∧ (mergeWithCachedCoordinates stA.providers_with_coordinates [pA1, pA2]
          5).length = [pA1, pA2].length) :=
  ⟨by decide,
   C6_merge_characterization stA.providers_with_coordinates [pA1, pA2] 5 (by decide)⟩

/-! ### Claim C3 (needsGeocodingUpdate) -/

theorem newProviders_length_pos_iff (cached : List Provider) (api : List ApiProvider) :
    0 < (api.filter
        (fun p => !((cached.map (fun c => c.id)).contains p.id))).length ↔
      ∃ p ∈ api, ∀ c ∈ cached, c.id ≠ p.id := by
  rw [List.length_pos, Ne, List.filter_eq_nil_iff]
  push_neg
  constructor
  · rintro ⟨p, hp, hpred⟩
    refine ⟨p, hp, fun c hc heq => ?_⟩
    have hmem : p.id ∈ cached.map (fun c => c.id) := List.mem_map.mpr ⟨c, hc, heq⟩
    simp [hmem] at hpred
  · rintro ⟨p, hp, hnone⟩
    refine ⟨p, hp, ?_⟩
    have hmem : p.id ∉ cached.map (fun c => c.id) := by
      rw [List.mem_map]
      rintro ⟨c, hc, heq⟩
      exact hnone c hc heq
    simp [hmem]

theorem addressChange_iff (cached : List Provider)
    (hnd : (cached.map (fun c => c.id)).Nodup) (p : ApiProvider) :
    ((match cached.find? (fun c => c.id == p.id) with
      | some c => (c.address != p.address || c.city != p.city)
      | none => false) = true) ↔
    ∃ c ∈ cached, c.id = p.id ∧ (c.address ≠ p.address ∨ c.city ≠ p.city) := by
  cases hf : cached.find? (fun c => c.id == p.id) with
  | none =>
    simp only [Bool.false_eq_true, false_iff]
    rintro ⟨c, hc, hid, hdiff⟩
    have := List.find?_eq_none.mp hf c hc
    simp [hid] at this
  | some c =>
    have hcmem := List.mem_of_find?_eq_some hf
    have hcid : c.id = p.id := by simpa using List.find?_some hf
    constructor
    · intro h
      refine ⟨c, hcmem, hcid, ?_⟩
      simpa using h
    · rintro ⟨c', hc', hid', hdiff⟩
      have hcc : c' = c :=
        List.inj_on_of_nodup_map hnd hc' hcmem (by rw [hid', hcid])
      subst hcc
      simpa using hdiff

theorem needsGeocodingUpdate_some_meta (st : StorageState)
    (api : List ApiProvider) (m : GeocodingMetadata)
    (hm : st.geocoding_metadata = some m)
    (h0 : ¬((loadProvidersWithCoordinates st).length = 0)) :
    needsGeocodingUpdate st api =
      (if m.total_providers ≠ api.length then true
       else if 0 < (api.filter (fun p =>
           !(((loadProvidersWithCoordinates st).map (fun c => c.id)).contains
             p.id))).length then true
       else if (api.any (fun apiProvider =>
           match (loadProvidersWithCoordinates st).find?
               (fun c => c.id == apiProvider.id) with
           | some c =>
             (c.address != apiProvider.address || c.city != apiProvider.city)
           | none => false)) then true else false) := by
  unfold needsGeocodingUpdate
  rw [if_neg h0, hm]

/-- C3: `needsGeocodingUpdate` returns true iff (a) the snapshot is empty
(no snapshot cached), or (b) no reconciliation metadata is present, or (c)
the fresh list's length differs from the metadata's total, or (d) some
fresh identifier is absent from the snapshot, or (e) some identifier
present in both has different address or city text; false only when every
check passes. Stated under the snapshot's distinct-identifier invariant. -/
theorem C3_needsGeocodingUpdate_iff (st : StorageState) (api : List ApiProvider)
    (hnd : ((loadProvidersWithCoordinates st).map (fun p => p.id)).Nodup) :
    needsGeocodingUpdate st api = true ↔
      loadProvidersWithCoordinates st = []
      ∨ st.geocoding_metadata = none
      ∨ (∃ m, st.geocoding_metadata = some m ∧ m.total_providers ≠ api.length)
      ∨ (∃ p ∈ api, ∀ c ∈ loadProvidersWithCoordinates st, c.id ≠ p.id)
      ∨ (∃ p ∈ api, ∃ c ∈ loadProvidersWithCoordinates st,
          c.id = p.id ∧ (c.address ≠ p.address ∨ c.city ≠ p.city)) := by
  by_cases h0 : (loadProvidersWithCoordinates st).length = 0
  · have : needsGeocodingUpdate st api = true := by
      unfold needsGeocodingUpdate
      rw [if_pos h0]
    simp [this, List.length_eq_zero.mp h0]
  · have hcne : ¬(loadProvidersWithCoordinates st = []) := by
      intro h
      exact h0 (by simp [h])
    cases hm : st.geocoding_metadata with
    | none =>
      have : needsGeocodingUpdate st api = true := by
        unfold needsGeocodingUpdate
        rw [if_neg h0, hm]
      simp [this, hcne]
    | some m =>
      rw [needsGeocodingUpdate_some_meta st api m hm h0]
      by_cases ht : m.total_providers = api.length
      · rw [if_neg (not_ne_iff.mpr ht)]
        by_cases hnew :
            0 < (api.filter (fun p =>
              !(((loadProvidersWithCoordinates st).map (fun c => c.id)).contains
                p.id))).length
        · rw [if_pos hnew]
          simp only [true_iff]
          exact Or.inr (Or.inr (Or.inr (Or.inl
            ((newProviders_length_pos_iff _ api).mp hnew))))
        · rw [if_neg hnew]
          by_cases hch : (api.any (fun apiProvider =>
              match (loadProvidersWithCoordinates st).find?
                  (fun c => c.id == apiProvider.id) with
              | some c =>
                (c.address != apiProvider.address || c.city != apiProvider.city)
              | none => false)) = true
          · rw [if_pos hch]
            simp only [true_iff]
            obtain ⟨p, hp, hpred⟩ := List.any_eq_true.mp hch
            exact Or.inr (Or.inr (Or.inr (Or.inr
              ⟨p, hp, (addressChange_iff _ hnd p).mp hpred⟩)))
          · rw [if_neg hch]
            simp only [Bool.false_eq_true, false_iff]
            rintro (h | h | ⟨m2, hm2, hne2⟩ | h4 | ⟨p, hp, hc⟩)
            · exact hcne h
            · exact Option.noConfusion h
            · injection hm2 with h2
              exact hne2 (h2 ▸ ht)
            · exact hnew ((newProviders_length_pos_iff _ api).mpr h4)
            · exact hch (List.any_eq_true.mpr
                ⟨p, hp, (addressChange_iff _ hnd p).mpr hc⟩)
      · rw [if_pos ht]
        simp only [true_iff]
        exact Or.inr (Or.inr (Or.inl ⟨m, rfl, ht⟩))

/-- Witness for C3 at a concrete state (snapshot present, no metadata). -/
theorem C3_witness :
    ((stA.providers_with_coordinates.map (fun p => p.id)).Nodup)
    ∧ (needsGeocodingUpdate stA [pA1] = true ↔
        loadProvidersWithCoordinates stA = []
        ∨ stA.geocoding_metadata = none
        ∨ (∃ m, stA.geocoding_metadata = some m ∧ m.total_providers ≠ [pA1].length)
        ∨ (∃ p ∈ [pA1], ∀ c ∈ loadProvidersWithCoordinates stA, c.id ≠ p.id)
        ∨ (∃ p ∈ [pA1], ∃ c ∈ loadProvidersWithCoordinates stA,
            c.id = p.id ∧ (c.address ≠ p.address ∨ c.city ≠ p.city))) :=
  ⟨by decide, C3_needsGeocodingUpdate_iff stA [pA1] (by decide)⟩

/-! ### Claim C7 (idempotent reconciliation) -/

/-- C7 counterexample: the claim fails as stated on two well-formed inputs.
With the **empty** fresh list, persisting the merged (empty) snapshot makes
`needsGeocodingUpdate` return true again (the empty snapshot trips the
no-snapshot check). With a fresh list containing a **duplicate identifier**
under two addresses, the address-comparison against the first snapshot
entry for that identifier reports a change forever. -/
theorem C7_counterexample :
    needsGeocodingUpdate
      (saveProvidersWithCoordinates stEmpty
        (mergeWithCachedCoordinates (loadProvidersWithCoordinates stEmpty) [] 0)
        0) [] = true
    ∧ needsGeocodingUpdate
      (saveProvidersWithCoordinates stEmpty
        (mergeWithCachedCoordinates (loadProvidersWithCoordinates stEmpty)
          [pA1, pA1b] 0) 0) [pA1, pA1b] = true :=
  ⟨by decide, by decide⟩

theorem merge_map_id (cached : List Provider) (api : List ApiProvider) (now : Int) :
    (mergeWithCachedCoordinates cached api now).map (fun c => c.id) =
      api.map (fun p => p.id) := by
  unfold mergeWithCachedCoordinates
  rw [List.map_map]
  rfl

theorem merge_find (cached : List Provider) (api : List ApiProvider) (now : Int)
    (hnd : (api.map (fun p => p.id)).Nodup) (p : ApiProvider) (hp : p ∈ api) :
    (mergeWithCachedCoordinates cached api now).find? (fun c => c.id == p.id) =
      some (p.toProvider (cachedCoordsGet cached p.id) (some now)) := by
  induction api with
  | nil => cases hp
  | cons q rest ih =>
    simp only [List.map_cons, List.nodup_cons] at hnd
    obtain ⟨hq, hndr⟩ := hnd
    unfold mergeWithCachedCoordinates
    rw [List.map_cons, List.find?_cons]
    rcases List.mem_cons.mp hp with hpq | hpr
    · subst hpq
      simp [ApiProvider.toProvider]
    · have hqid : q.id ≠ p.id := by
        intro heq
        exact hq (heq ▸ List.mem_map.mpr ⟨p, hpr, rfl⟩)
      have hqp : ((q.toProvider (cachedCoordsGet cached q.id) (some now)).id
          == p.id) = false := by
        simp [ApiProvider.toProvider, hqid]
      rw [hqp]
      exact ih hndr hpr

/-- C7 (amended): once the snapshot and reconciliation metadata have been
persisted from a **nonempty** fresh directory list with **pairwise-distinct
identifiers** (via `saveProvidersWithCoordinates` of the merged list),
`needsGeocodingUpdate` with the same unchanged fresh list returns false —
and since it only reads state, every subsequent call with that list returns
false as well; and `mergeWithCachedCoordinates` is a pure function of the
fresh list, the cached snapshot, and the clock, so running it twice over
identical input and identical cache yields identical output. -/
theorem C7_idempotent_after_save (st : StorageState) (api : List ApiProvider)
    (now now2 : Int) (hne : api ≠ []) (hnd : (api.map (fun p => p.id)).Nodup) :
    needsGeocodingUpdate
      (saveProvidersWithCoordinates st
        (mergeWithCachedCoordinates (loadProvidersWithCoordinates st) api now)
        now) api = false
    ∧ mergeWithCachedCoordinates (loadProvidersWithCoordinates st) api now2 =
      mergeWithCachedCoordinates (loadProvidersWithCoordinates st) api now2 := by
  refine ⟨?_, rfl⟩
  set cached := loadProvidersWithCoordinates st with hcached
  set merged := mergeWithCachedCoordinates cached api now with hmerged
  set st' := saveProvidersWithCoordinates st merged now with hst
  have hload : loadProvidersWithCoordinates st' = merged := rfl
  have hlen : merged.length = api.length := by
    rw [hmerged]
    unfold mergeWithCachedCoordinates
    exact List.length_map _ _
  have h0 : ¬((loadProvidersWithCoordinates st').length = 0) := by
    rw [hload, hlen]
    intro h
    exact hne (List.length_eq_zero.mp h)
  rw [needsGeocodingUpdate_some_meta st' api _ rfl h0]
  rw [if_neg (not_ne_iff.mpr (by exact hlen))]
  have hids : (loadProvidersWithCoordinates st').map (fun c => c.id) =
      api.map (fun p => p.id) := by
    rw [hload, hmerged]
    exact merge_map_id cached api now
  have hfil : api.filter (fun p =>
      !(((loadProvidersWithCoordinates st').map (fun c => c.id)).contains
        p.id)) = [] := by
    apply List.filter_eq_nil_iff.mpr
    intro p hp
    rw [hids]
    simp only [Bool.not_eq_true', Bool.not_eq_false]
    have hmem : p.id ∈ api.map (fun p => p.id) := List.mem_map.mpr ⟨p, hp, rfl⟩
    simpa using hmem
  rw [if_neg (by rw [hfil]; simp)]
  have hany : (api.any (fun apiProvider =>
      match (loadProvidersWithCoordinates st').find?
          (fun c => c.id == apiProvider.id) with
      | some c =>
        (c.address != apiProvider.address || c.city != apiProvider.city)
      | none => false)) = false := by
    rw [List.any_eq_false]
    intro p hp
    rw [hload, hmerged, merge_find cached api now hnd p hp]
    simp [ApiProvider.toProvider]
  rw [if_neg (by rw [hany]; simp)]

/-- Witness for C7: concrete nonempty duplicate-free fresh list. -/
theorem C7_witness :
    ([pA1] ≠ [] ∧ (([pA1].map (fun p => p.id)).Nodup))
    ∧ (needsGeocodingUpdate
        (saveProvidersWithCoordinates stEmpty
          (mergeWithCachedCoordinates (loadProvidersWithCoordinates stEmpty)
            [pA1] 0) 0) [pA1] = false
      ∧ mergeWithCachedCoordinates (loadProvidersWithCoordinates stEmpty) [pA1] 5 =
        mergeWithCachedCoordinates (loadProvidersWithCoordinates stEmpty) [pA1] 5) :=
  ⟨⟨by decide, by decide⟩,
   C7_idempotent_after_save stEmpty [pA1] 0 5 (by decide) (by decide)⟩

/-! ### Claims C1 and C2 (Sync Orchestrator) -/

theorem fetchProvidersFromAPI_success_of_some (env : Env) (st : StorageState)
    (l : List ApiProvider) (hf : env.fetch = some l) :
    (fetchProvidersFromAPI env st).1.success = true
    ∧ (fetchProvidersFromAPI env st).1.data.length = l.length := by
  simp only [fetchProvidersFromAPI, hf]
  by_cases hn : needsGeocodingUpdate st l = true
  · rw [if_pos hn]
    refine ⟨rfl, ?_⟩
    show ((geocodeProviders env st.geocoding_cache
      (mergeWithCachedCoordinates (loadProvidersWithCoordinates st)
        l env.now)).1).length = l.length
    rw [geocodeProviders_length]
    simp [mergeWithCachedCoordinates]
  · rw [if_neg hn]
    exact ⟨rfl, by simp [mergeWithCachedCoordinates]⟩

theorem fetchProvidersFromAPI_none_pos (env : Env) (st : StorageState)
    (hf : env.fetch = none) (hne : loadProvidersWithCoordinates st ≠ []) :
    fetchProvidersFromAPI env st =
      ({ success := true, data := loadProvidersWithCoordinates st }, st, 0) := by
  simp only [fetchProvidersFromAPI, hf]
  rw [if_pos (List.length_pos.mpr hne)]

theorem fetchProvidersFromAPI_none_nil (env : Env) (st : StorageState)
    (hf : env.fetch = none) (hnil : loadProvidersWithCoordinates st = []) :
    fetchProvidersFromAPI env st = ({ success := false, data := [] }, st, 0) := by
  simp only [fetchProvidersFromAPI, hf]
  rw [if_neg (by simp [hnil])]

/-- C2: if `forceRefresh` is false and the directory-level cache is fresh
(`isCacheExpired` false — an hours-scale window independent of coordinate
expiry) and a persisted snapshot exists, `syncProviders` returns exactly
that snapshot as success with an unchanged state, no fetch attempt and zero
remote geocoding calls; and with `forceRefresh` true the fetch is always
attempted, however fresh the cache. -/
theorem C2_fresh_cache_and_force (env : Env) (st : StorageState) :
    (isCacheExpired env.now st.last_sync = false →
      loadProvidersWithCoordinates st ≠ [] →
      syncProviders env st false =
        { res := { success := true, data := loadProvidersWithCoordinates st },
          state := st, fetchAttempted := false, remoteCalls := 0 })
    ∧ (syncProviders env st true).fetchAttempted = true := by
  constructor
  · intro hexp hne
    have hlen : 0 < (loadProvidersWithCoordinates st).length :=
      List.length_pos.mpr hne
    simp only [syncProviders]
    rw [if_pos (by simp [hexp, hlen])]
  · simp only [syncProviders]
    rw [if_neg (by simp)]
    split
    · rfl
    · split <;> rfl

/-- Witness for C2: fresh cache (synced at 0, clock at 1 ms) with a
one-provider snapshot is returned as-is. -/
theorem C2_witness :
    syncProviders env4fresh stA false =
      { res := { success := true, data := loadProvidersWithCoordinates stA },
        state := stA, fetchAttempted := false, remoteCalls := 0 } :=
  (C2_fresh_cache_and_force env4fresh stA).1 (by decide) (by decide)

/-- C1: (1) `syncProviders` returns an outright failure only when the
directory fetch failed and no persisted snapshot exists; (2) when the fetch
fails but a snapshot exists, the snapshot itself is returned as a
(degraded) success; (3) with a successful fetch of a nonempty batch the
sync reports success and returns exactly one record per fetched provider,
whatever the geocoding oracle does — so no individual geocoding failure
can abort the batch; (4) concretely, a 3-provider batch whose middle
provider's geocoding fails (remote lookup down, city not in the fallback
table) still yields 3 records, exactly one without a coordinate, and
success. -/
theorem C1_failure_semantics :
    (∀ (env : Env) (st : StorageState) (force : Bool),
      (syncProviders env st force).res.success = false →
      env.fetch = none ∧ loadProvidersWithCoordinates st = [])
    ∧ (∀ (env : Env) (st : StorageState) (force : Bool),
      env.fetch = none → loadProvidersWithCoordinates st ≠ [] →
      (syncProviders env st force).res.success = true
      ∧ (syncProviders env st force).res.data = loadProvidersWithCoordinates st)
    ∧ (∀ (env : Env) (st : StorageState) (l : List ApiProvider),
      env.fetch = some l → l ≠ [] →
      (syncProviders env st true).res.success = true
      ∧ (syncProviders env st true).res.data.length = l.length)
    ∧ ((syncProviders envP5 stEmpty true).res.success = true
      ∧ (syncProviders envP5 stEmpty true).res.data.length = 3
      ∧ ((syncProviders envP5 stEmpty true).res.data.filter
          (fun p => p.coordinates.isNone)).length = 1) := by
  refine ⟨?_, ?_, ?_, by decide, by decide, by decide⟩
  · intro env st force h
    cases hf : env.fetch with
    | some l =>
      exfalso
      have hs := (fetchProvidersFromAPI_success_of_some env st l hf).1
      simp only [syncProviders] at h
      split at h
      · simp at h
      · split at h
        · simp [hs] at h
        · split at h
          · simp at h
          · simp [hs] at h
    | none =>
      by_cases hnil : loadProvidersWithCoordinates st = []
      · exact ⟨rfl, hnil⟩
      · exfalso
        have hfeq := fetchProvidersFromAPI_none_pos env st hf hnil
        have hlen : 0 < (loadProvidersWithCoordinates st).length :=
          List.length_pos.mpr hnil
        simp only [syncProviders, hfeq] at h
        split at h
        · simp at h
        · simp [hlen] at h
  · intro env st force hf hne
    have hfeq := fetchProvidersFromAPI_none_pos env st hf hne
    have hlen : 0 < (loadProvidersWithCoordinates st).length :=
      List.length_pos.mpr hne
    simp only [syncProviders, hfeq]
    split
    · exact ⟨rfl, rfl⟩
    · rw [if_pos (by simp [hlen])]
      exact ⟨rfl, rfl⟩
  · intro env st l hf hne
    have hs := (fetchProvidersFromAPI_success_of_some env st l hf).1
    have hl := (fetchProvidersFromAPI_success_of_some env st l hf).2
    have hpos : 0 < (fetchProvidersFromAPI env st).1.data.length := by
      rw [hl]
      exact List.length_pos.mpr hne
    simp only [syncProviders]
    rw [if_neg (by simp)]
    rw [if_pos (by simp [hs, hpos])]
    exact ⟨hs, hl⟩

/-- Witness for C1: all three universally quantified parts instantiated —
failed fetch on an empty state yields failure with both conditions holding;
failed fetch with the `stA` snapshot yields that snapshot as success; and a
successful nonempty fetch yields success with one record per provider. -/
theorem C1_witness :
    (envNone.fetch = none ∧ loadProvidersWithCoordinates stEmpty = [])
    ∧ ((syncProviders envNone stA false).res.success = true
      ∧ (syncProviders envNone stA false).res.data =
        loadProvidersWithCoordinates stA)
    ∧ ((syncProviders envP5 stEmpty true).res.success = true
      ∧ (syncProviders envP5 stEmpty true).res.data.length = [pA1, pA2, pA3].length) :=
  ⟨C1_failure_semantics.1 envNone stEmpty false (by decide),
   C1_failure_semantics.2.1 envNone stA false rfl (by decide),
   C1_failure_semantics.2.2.1 envP5 stEmpty [pA1, pA2, pA3] rfl (by decide)⟩
